import Mathlib

/-!
Verification of the fetch-normalize-filter pipeline of the x-research-skill
repository (src/lib/api.ts and the unnamed Composio-only variant).

The embedding below translates the TypeScript source into Lean:
JavaScript values that may be absent at runtime become Option;
the JS pattern `x || d` on numbers/strings becomes an explicit
truthiness default (0 and "" are falsy); a JS property access that
throws a TypeError on an absent object is modelled as Option failure;
the stable Array.prototype.sort with a numeric comparator is modelled
by the stable List.mergeSort with the ordering induced by the
sign of the comparator.
-/

/-- Canonical metric block of a normalized post record
(`Tweet.metrics` in src/lib/api.ts, lines 61-68). -/
structure TweetMetrics where
  likes : Nat
  retweets : Nat
  replies : Nat
  quotes : Nat
  impressions : Nat
  bookmarks : Nat
deriving DecidableEq, Repr

/-- Canonical post record (`interface Tweet`, src/lib/api.ts lines 53-73). -/
structure Tweet where
  id : String
  text : String
  author_id : String
  username : String
  name : String
  created_at : String
  conversation_id : String
  metrics : TweetMetrics
  urls : List String
  mentions : List String
  hashtags : List String
  tweet_url : String
deriving DecidableEq, Repr

/-- The four sortable metrics accepted by sortBy
(src/lib/api.ts line 427). -/
inductive Metric
  | likes
  | impressions
  | retweets
  | replies
deriving DecidableEq, Repr

/-- Projection `t.metrics[metric]` used by the sortBy comparator. -/
def metricOf (m : Metric) (t : Tweet) : Nat :=
  match m with
  | Metric.likes => t.metrics.likes
  | Metric.impressions => t.metrics.impressions
  | Metric.retweets => t.metrics.retweets
  | Metric.replies => t.metrics.replies

/-- sortBy (src/lib/api.ts lines 425-430): a copy of the input array is
sorted with the comparator `(a, b) => b.metrics[metric] - a.metrics[metric]`.
Array.prototype.sort is stable (ES2019), and a stable sort whose comparator
orders by the sign of `b.m - a.m` is exactly the stable merge sort under the
boolean relation `b.m ≤ a.m` (a may precede b iff the comparator is ≤ 0). -/
def sortBy (tweets : List Tweet) (metric : Metric) : List Tweet :=
  tweets.mergeSort (fun a b => decide (metricOf metric b ≤ metricOf metric a))

/-- Engagement thresholds (src/lib/api.ts line 434). -/
structure EngagementOpts where
  minLikes : Option Nat
  minImpressions : Option Nat
deriving DecidableEq, Repr

/-- JS truthiness of a possibly-absent number: undefined and 0 are falsy. -/
def truthyNat (o : Option Nat) : Bool :=
  match o with
  | none => false
  | some n => n != 0

/-- The filter predicate of filterEngagement (src/lib/api.ts lines 436-440):
each threshold is applied only when truthy (supplied and nonzero). -/
def keepTweet (o : EngagementOpts) (t : Tweet) : Bool :=
  if truthyNat o.minLikes && decide (t.metrics.likes < o.minLikes.getD 0) then false
  else if truthyNat o.minImpressions && decide (t.metrics.impressions < o.minImpressions.getD 0) then false
  else true

/-- filterEngagement (src/lib/api.ts lines 432-441). -/
def filterEngagement (tweets : List Tweet) (o : EngagementOpts) : List Tweet :=
  tweets.filter (keepTweet o)

/-- Specification-side predicate, following the words of the spec: a record is
retained iff every supplied threshold (minimum likes, minimum impressions)
is met. Used to compare the filter of the code against the spec (claim C6). -/
def meetsThresholdsSpec (o : EngagementOpts) (t : Tweet) : Bool :=
  (match o.minLikes with
   | none => true
   | some m => decide (m ≤ t.metrics.likes)) &&
  (match o.minImpressions with
   | none => true
   | some m => decide (m ≤ t.metrics.impressions))

/-- The filter pass of dedupe (src/lib/api.ts lines 443-450): the mutable
`seen` set of ids is threaded explicitly. -/
def dedupeAux (seen : List String) : List Tweet → List Tweet
  | [] => []
  | t :: rest =>
    if t.id ∈ seen then dedupeAux seen rest
    else t :: dedupeAux (t.id :: seen) rest

/-- dedupe (src/lib/api.ts lines 443-450): single pass with an initially
empty seen-set. -/
def dedupe (tweets : List Tweet) : List Tweet :=
  dedupeAux [] tweets

/-! ### Raw Composio payloads and the normalizer (parseTweet, parseTweets) -/

/-- Author side-table entry (response.includes.users items). The TS type
declares username and name as required strings; parseTweet still guards
each with a truthiness default. -/
structure TwitterUser where
  id : String
  username : String
  name : String
deriving DecidableEq, Repr

/-- One item of t.entities.urls; expanded_url may be absent at runtime. -/
structure RawEntityUrl where
  expanded_url : Option String
deriving DecidableEq, Repr

/-- One item of t.entities.mentions. -/
structure RawEntityMention where
  username : Option String
deriving DecidableEq, Repr

/-- One item of t.entities.hashtags. -/
structure RawEntityHashtag where
  tag : Option String
deriving DecidableEq, Repr

/-- The nested t.entities block; each array may be absent. -/
structure RawEntities where
  urls : Option (List RawEntityUrl)
  mentions : Option (List RawEntityMention)
  hashtags : Option (List RawEntityHashtag)
deriving DecidableEq, Repr

/-- The t.public_metrics block; every count may be absent from the payload. -/
structure RawPublicMetrics where
  like_count : Option Nat
  retweet_count : Option Nat
  reply_count : Option Nat
  quote_count : Option Nat
  impression_count : Option Nat
  bookmark_count : Option Nat
deriving DecidableEq, Repr

/-- A raw provider item as consumed by parseTweet (src/lib/api.ts lines
201-225). Fields the code guards with a default are Options. -/
structure RawTweet where
  id : String
  text : String
  author_id : String
  created_at : String
  conversation_id : Option String
  public_metrics : Option RawPublicMetrics
  entities : Option RawEntities
deriving DecidableEq, Repr

/-- The empty object produced by `t.public_metrics || \x7b\x7d`. -/
def emptyRawMetrics : RawPublicMetrics :=
  { like_count := none, retweet_count := none, reply_count := none,
    quote_count := none, impression_count := none, bookmark_count := none }

/-- JS string truthiness default `s || d` where s may be absent: undefined
and the empty string both fall back to d. -/
def strOr (o : Option String) (d : String) : String :=
  match o with
  | none => d
  | some s => if s = "" then d else s

/-- Lookup `users[t.author_id]` where the users map was built by assigning
`users[u.id] = u` over the includes list: a later entry overwrites an
earlier one with the same id. -/
def lookupUser (users : List TwitterUser) (aid : String) : Option TwitterUser :=
  (users.filter (fun u => u.id == aid)).getLast?

/-- The username of the looked-up author: `u.username || "?"` where u is
`users[t.author_id] || \x7b\x7d`. -/
def userUsername (u : Option TwitterUser) : String :=
  match u with
  | none => "?"
  | some usr => if usr.username = "" then "?" else usr.username

/-- The display name of the looked-up author: `u.name || "?"`. -/
def userName (u : Option TwitterUser) : String :=
  match u with
  | none => "?"
  | some usr => if usr.name = "" then "?" else usr.name

/-- Entity extraction `(xs || []).map(f).filter(Boolean)`: absent array
means empty, and mapped values that are absent or empty strings drop out. -/
def extractEntities {α : Type} (xs : Option (List α)) (f : α → Option String) : List String :=
  (xs.getD []).filterMap (fun x =>
    match f x with
    | none => none
    | some s => if s = "" then none else some s)

/-- parseTweet (src/lib/api.ts lines 201-225, identical in the unnamed
Composio-only variant lines 92-116). Total: every absence the code guards
has an explicit default. -/
def parseTweet (users : List TwitterUser) (t : RawTweet) : Tweet :=
  let u := lookupUser users t.author_id
  let m := t.public_metrics.getD emptyRawMetrics
  { id := t.id
    text := t.text
    author_id := t.author_id
    username := userUsername u
    name := userName u
    created_at := t.created_at
    conversation_id := strOr t.conversation_id t.id
    metrics :=
      { likes := m.like_count.getD 0
        retweets := m.retweet_count.getD 0
        replies := m.reply_count.getD 0
        quotes := m.quote_count.getD 0
        impressions := m.impression_count.getD 0
        bookmarks := m.bookmark_count.getD 0 }
    urls := extractEntities (t.entities.bind RawEntities.urls) RawEntityUrl.expanded_url
    mentions := extractEntities (t.entities.bind RawEntities.mentions) RawEntityMention.username
    hashtags := extractEntities (t.entities.bind RawEntities.hashtags) RawEntityHashtag.tag
    tweet_url := "https://x.com/" ++ userUsername u ++ "/status/" ++ t.id }

/-- The response.data field as seen at runtime: absent (undefined, which
`response.data || []` turns into an empty array), present but not an
array, or an array of raw items. -/
inductive RawData
  | absent
  | notArray
  | items (ts : List RawTweet)
deriving DecidableEq, Repr

/-- The response.meta block. -/
structure MetaBlock where
  next_token : Option String
deriving DecidableEq, Repr

/-- A provider search response (interface TweetResponse, src/lib/api.ts
lines 195-199). includes_users collapses the two optional hops of
`response.includes?.users` into one Option (both absences give []). -/
structure TweetResponse where
  data : RawData
  includes_users : Option (List TwitterUser)
  meta : Option MetaBlock
deriving DecidableEq, Repr

/-- The users side-table of a response: `response.includes?.users || []`. -/
def responseUsers (r : TweetResponse) : List TwitterUser :=
  r.includes_users.getD []

/-- parseTweets (src/lib/api.ts lines 227-237): malformed or empty data
yields no records; otherwise every item is normalized against the
user side-table of the response. -/
def parseTweets (r : TweetResponse) : List Tweet :=
  match r.data with
  | RawData.absent => []
  | RawData.notArray => []
  | RawData.items ts =>
    if ts.isEmpty then []
    else ts.map (parseTweet (responseUsers r))

/-! ### Raw Bird CLI payloads and parseBirdTweet -/

/-- The t.author block of a Bird CLI item (src/lib/api.ts lines 80-84). -/
structure BirdAuthor where
  id : String
  username : String
  name : String
deriving DecidableEq, Repr

/-- The t.metrics block of a Bird CLI item; each count individually guarded
by `|| 0` in parseBirdTweet, so each may be absent. -/
structure BirdMetrics where
  likes : Option Nat
  retweets : Option Nat
  replies : Option Nat
  quotes : Option Nat
  impressions : Option Nat
deriving DecidableEq, Repr

/-- A raw Bird CLI item (interface BirdTweet, src/lib/api.ts lines 77-96).
The metrics block itself is an Option because a JSON payload may omit it;
parseBirdTweet dereferences it without a guard. -/
structure BirdTweet where
  id : String
  text : String
  author : BirdAuthor
  created_at : String
  metrics : Option BirdMetrics
  urls : Option (List String)
  mentions : Option (List String)
  hashtags : Option (List String)
deriving DecidableEq, Repr

/-- parseBirdTweet (src/lib/api.ts lines 98-120). The code reads
`t.metrics.likes || 0` without guarding t.metrics itself, so an absent
metrics block raises a TypeError at runtime, modelled here as none;
each individual count and each entity array has an explicit default. -/
def parseBirdTweet (t : BirdTweet) : Option Tweet :=
  match t.metrics with
  | none => none
  | some m => some
    { id := t.id
      text := t.text
      author_id := t.author.id
      username := t.author.username
      name := t.author.name
      created_at := t.created_at
      conversation_id := t.id
      metrics :=
        { likes := m.likes.getD 0
          retweets := m.retweets.getD 0
          replies := m.replies.getD 0
          quotes := m.quotes.getD 0
          impressions := m.impressions.getD 0
          bookmarks := 0 }
      urls := t.urls.getD []
      mentions := t.mentions.getD []
      hashtags := t.hashtags.getD []
      tweet_url := "https://x.com/" ++ t.author.username ++ "/status/" ++ t.id }

/-! ### Pagination engine (composioSearch, src/lib/api.ts lines 282-319;
search in the unnamed variant lines 202-249) -/

/-- Search options (src/lib/api.ts line 284). sortOrder and since are
carried as optional strings; the wall-clock start_time computation of
parseSince is outside the claims and elided from the request record. -/
structure SearchOpts where
  maxResults : Option Nat
  pages : Option Nat
  sortOrder : Option String
  since : Option String
deriving DecidableEq, Repr

/-- JS numeric truthiness default `o || d`: undefined and 0 fall back to d. -/
def natOr (o : Option Nat) (d : Nat) : Nat :=
  match o with
  | none => d
  | some n => if n = 0 then d else n

/-- The per-page max_results sent upstream:
`Math.max(opts.maxResults || 10, 10)` (src/lib/api.ts line 286). -/
def composioMaxResults (o : Option Nat) : Nat :=
  Nat.max (natOr o 10) 10

/-- The page budget: `opts.pages || 1` (src/lib/api.ts line 287). -/
def composioPages (o : Option Nat) : Nat :=
  natOr o 1

/-- The request body built once per loop iteration (src/lib/api.ts lines
293-307). The constant tweet_fields/expansions/user_fields arrays are
elided; start_time is elided because it depends on wall-clock time. -/
structure RequestParams where
  query : String
  max_results : Nat
  sort_order : String
  next_token : Option String
deriving DecidableEq, Repr

/-- Parameters of the fetch issued for one page. -/
def mkSearchParams (query : String) (opts : SearchOpts) (tok : Option String) : RequestParams :=
  { query := query
    max_results := composioMaxResults opts.maxResults
    sort_order := strOr opts.sortOrder "relevancy"
    next_token := tok }

/-- The continuation token of a response: `result.meta?.next_token`. -/
def responseNextToken (r : TweetResponse) : Option String :=
  match r.meta with
  | none => none
  | some mb => mb.next_token

/-- Observable events of one pagination run: the fetch of a page, and the
inter-page pacing delay (`await new Promise(r => setTimeout(r, 500))`). -/
inductive Event
  | fetchPage (page : Nat)
  | delay
deriving DecidableEq, Repr

/-- The for-loop of composioSearch (src/lib/api.ts lines 292-316), from
loop counter `page` up to the budget `pages`. The upstream call is the
oracle f (page index and continuation token determine the response).
Returns the accumulated records and the trace of fetch/delay events:
fetch the page, append its parsed records, stop if no continuation token,
and pace with a delay only when another budgeted iteration follows
(`if (page < pages - 1)`). -/
def searchPages (f : Nat → Option String → TweetResponse) (pages page : Nat)
    (tok : Option String) : List Tweet × List Event :=
  if _h : page < pages then
    match responseNextToken (f page tok) with
    | none => (parseTweets (f page tok), [Event.fetchPage page])
    | some t =>
      if page < pages - 1 then
        (parseTweets (f page tok) ++ (searchPages f pages (page + 1) (some t)).1,
         Event.fetchPage page :: Event.delay :: (searchPages f pages (page + 1) (some t)).2)
      else
        (parseTweets (f page tok) ++ (searchPages f pages (page + 1) (some t)).1,
         Event.fetchPage page :: (searchPages f pages (page + 1) (some t)).2)
  else ([], [])
termination_by pages - page
decreasing_by all_goals omega

/-- composioSearch as a whole: page budget `opts.pages || 1`, starting at
page 0 with no continuation token; the request of each page is built by
mkSearchParams and served by the transport oracle g. -/
def composioSearchRun (g : RequestParams → TweetResponse) (query : String)
    (opts : SearchOpts) : List Tweet × List Event :=
  searchPages (fun _page tok => g (mkSearchParams query opts tok))
    (composioPages opts.pages) 0 none

/-- The record selection of composioTweet (src/lib/api.ts line 341):
`tweets.find(t => t.id === tweetId) || tweets[0] || null`. -/
def composioTweetPick (tweetId : String) (tweets : List Tweet) : Option Tweet :=
  match tweets.find? (fun t => t.id == tweetId) with
  | some t => some t
  | none => tweets.head?

/-- The record list composioTweet searches over (src/lib/api.ts line 340):
a search whose query is the id string with maxResults 10. -/
def composioTweetSearch (g : RequestParams → TweetResponse) (tweetId : String) : List Tweet :=
  (composioSearchRun g tweetId
    { maxResults := some 10, pages := none, sortOrder := none, since := none }).1

/-- composioTweet (src/lib/api.ts lines 339-342). -/
def composioTweet (g : RequestParams → TweetResponse) (tweetId : String) : Option Tweet :=
  composioTweetPick tweetId (composioTweetSearch g tweetId)

/-! ### Provider router (unified API, src/lib/api.ts lines 344-423) -/

/-- The outcome of invoking one adapter: a value, or a thrown error with
its message (a transient request failure). -/
inductive AdapterResult (α : Type)
  | ok (val : α)
  | fail (msg : String)
deriving DecidableEq, Repr

/-- How a routed operation ends when no adapter produced a value:
allUnavailable models the thrown
"Neither Bird CLI nor COMPOSIO_API_KEY available" (the aggregated
no-provider error), composioFail the raw error propagating out of an
attempted Composio call. -/
inductive RouteError
  | allUnavailable
  | composioFail (msg : String)
deriving DecidableEq, Repr

/-- The shared tail of each routed operation (src/lib/api.ts lines
362-368 and analogues): if getComposioKey yields the empty string the
aggregated error is thrown; otherwise the Composio adapter runs and its
outcome, success or raw failure, is the outcome of the operation. -/
def routeFromComposio {α : Type} (composioKey : String) (composioRes : AdapterResult α)
    (log : List String) : Except RouteError α × List String :=
  if composioKey = "" then (Except.error RouteError.allUnavailable, log)
  else
    match composioRes with
    | AdapterResult.ok v => (Except.ok v, log)
    | AdapterResult.fail e => (Except.error (RouteError.composioFail e), log)

/-- The router shape shared by search, thread, profile and getTweet
(src/lib/api.ts lines 346-423): when Bird is available its result is
returned on success, and on failure the error is logged to console.error
and control falls through to the Composio tail; when Bird is unavailable
the tail runs with nothing logged. -/
def route {α : Type} (birdAvail : Bool) (birdRes : AdapterResult α)
    (composioKey : String) (composioRes : AdapterResult α) :
    Except RouteError α × List String :=
  if birdAvail then
    match birdRes with
    | AdapterResult.ok v => (Except.ok v, [])
    | AdapterResult.fail e =>
      routeFromComposio composioKey composioRes
        ["Bird CLI failed, falling back to Composio: " ++ e]
  else routeFromComposio composioKey composioRes []

/-- The unified search operation (src/lib/api.ts lines 346-369) as an
instance of route at result type List Tweet. -/
def searchOp (birdAvail : Bool) (birdRes : AdapterResult (List Tweet))
    (composioKey : String) (composioRes : AdapterResult (List Tweet)) :
    Except RouteError (List Tweet) × List String :=
  route birdAvail birdRes composioKey composioRes

/-- The unified thread operation (src/lib/api.ts lines 371-386). -/
def threadOp (birdAvail : Bool) (birdRes : AdapterResult (List Tweet))
    (composioKey : String) (composioRes : AdapterResult (List Tweet)) :
    Except RouteError (List Tweet) × List String :=
  route birdAvail birdRes composioKey composioRes

/-- The resolved author identity returned by profile. -/
structure UserIdentity where
  username : String
  name : String
deriving DecidableEq, Repr

/-- The unified profile operation (src/lib/api.ts lines 388-406). -/
def profileOp (birdAvail : Bool) (birdRes : AdapterResult (UserIdentity × List Tweet))
    (composioKey : String) (composioRes : AdapterResult (UserIdentity × List Tweet)) :
    Except RouteError (UserIdentity × List Tweet) × List String :=
  route birdAvail birdRes composioKey composioRes

/-- The unified getTweet operation (src/lib/api.ts lines 408-423). -/
def getTweetOp (birdAvail : Bool) (birdRes : AdapterResult (Option Tweet))
    (composioKey : String) (composioRes : AdapterResult (Option Tweet)) :
    Except RouteError (Option Tweet) × List String :=
  route birdAvail birdRes composioKey composioRes

/-! ### Sample values used by witnesses and counterexamples -/

/-- A canonical record with a chosen id and like count; all other fields
fixed. -/
def sampleTweet (i : String) (likes : Nat) : Tweet :=
  { id := i, text := "t", author_id := "a", username := "u", name := "n",
    created_at := "2024-01-01", conversation_id := i,
    metrics := { likes := likes, retweets := 0, replies := 0, quotes := 0,
                 impressions := 0, bookmarks := 0 },
    urls := [], mentions := [], hashtags := [], tweet_url := "p" }

/-- A raw Bird item whose metrics block is entirely absent. -/
def birdItemNoMetrics : BirdTweet :=
  { id := "1", text := "hi",
    author := { id := "a1", username := "alice", name := "Alice" },
    created_at := "2024-01-01", metrics := none,
    urls := none, mentions := none, hashtags := none }

/-- A raw Composio item whose public_metrics block is entirely absent. -/
def rawItemNoMetrics : RawTweet :=
  { id := "2", text := "x", author_id := "a", created_at := "2024-01-01",
    conversation_id := none, public_metrics := none, entities := none }

/-- A raw Composio item with id 99 (does not match the lookups below). -/
def cexRawItem : RawTweet :=
  { id := "99", text := "w", author_id := "a", created_at := "2024-01-01",
    conversation_id := none, public_metrics := none, entities := none }

/-- A page with zero records but a continuation token. -/
def tokenOnlyResponse : TweetResponse :=
  { data := RawData.items [], includes_users := none,
    meta := some { next_token := some "T" } }

/-- A final page: one record, no continuation token. -/
def finalResponse : TweetResponse :=
  { data := RawData.items [cexRawItem], includes_users := none, meta := none }

/-- A transport oracle: page 0 yields the zero-record tokened page, every
later page the final page. -/
def cexFetch : Nat → Option String → TweetResponse :=
  fun page _tok => if page = 0 then tokenOnlyResponse else finalResponse

/-- A response used for the single-item lookup scenario. -/
def singleItemResponse : TweetResponse :=
  { data := RawData.items [cexRawItem], includes_users := none, meta := none }

/-- A transport oracle returning the same single-item page always. -/
def g0 : RequestParams → TweetResponse := fun _ => singleItemResponse

/-! ### Helper lemmas -/

/-- One unfolding of the pagination loop when the budget is not yet
exhausted. -/
theorem searchPages_step (f : Nat → Option String → TweetResponse)
    (pages page : Nat) (tok : Option String) (h : page < pages) :
    searchPages f pages page tok =
      match responseNextToken (f page tok) with
      | none => (parseTweets (f page tok), [Event.fetchPage page])
      | some t =>
        if page < pages - 1 then
          (parseTweets (f page tok) ++ (searchPages f pages (page + 1) (some t)).1,
           Event.fetchPage page :: Event.delay :: (searchPages f pages (page + 1) (some t)).2)
        else
          (parseTweets (f page tok) ++ (searchPages f pages (page + 1) (some t)).1,
           Event.fetchPage page :: (searchPages f pages (page + 1) (some t)).2) := by
  rw [searchPages]
  rw [dif_pos h]

/-- The pagination loop does nothing once the budget is exhausted. -/
theorem searchPages_stop (f : Nat → Option String → TweetResponse)
    (pages page : Nat) (tok : Option String) (h : ¬ page < pages) :
    searchPages f pages page tok = ([], []) := by
  rw [searchPages]
  rw [dif_neg h]

/-- Pointwise agreement of the filter predicate of the code with the
spec-side predicate: a truthy (nonzero) threshold is applied as a
minimum, a zero or absent threshold excludes nothing, and a zero
threshold is vacuously met since metrics are naturals. -/
theorem keepTweet_eq_meetsThresholdsSpec (o : EngagementOpts) (t : Tweet) :
    keepTweet o t = meetsThresholdsSpec o t := by
  rcases o with ⟨ml, mi⟩
  rcases ml with _ | m1 <;> rcases mi with _ | m2 <;>
    simp only [keepTweet, meetsThresholdsSpec, truthyNat, Option.getD]
  · rfl
  · by_cases z2 : m2 = 0 <;> by_cases h2 : t.metrics.impressions < m2 <;>
      simp [z2, h2] <;> omega
  · by_cases z1 : m1 = 0 <;> by_cases h1 : t.metrics.likes < m1 <;>
      simp [z1, h1] <;> omega
  · by_cases z1 : m1 = 0 <;> by_cases h1 : t.metrics.likes < m1 <;>
      by_cases z2 : m2 = 0 <;> by_cases h2 : t.metrics.impressions < m2 <;>
      simp [z1, h1, z2, h2] <;> omega

/-- C6: filterEngagement retains exactly the records meeting every
supplied threshold (minimum likes, minimum impressions), and with no
thresholds supplied it returns the input unchanged. -/
theorem c6_filterEngagement_thresholds (l : List Tweet) (o : EngagementOpts) :
    filterEngagement l o = l.filter (meetsThresholdsSpec o) ∧
    filterEngagement l { minLikes := none, minImpressions := none } = l := by
  constructor
  · unfold filterEngagement
    apply List.filter_congr
    intro t _
    exact keepTweet_eq_meetsThresholdsSpec o t
  · unfold filterEngagement
    have hall : ∀ t, keepTweet { minLikes := none, minImpressions := none } t = true := by
      intro t
      rfl
    simp [hall]

/-- C7: a response whose data field is structurally absent, not an array,
or an empty item list normalizes to the empty record sequence. -/
theorem c7_parseTweets_malformed_empty (r : TweetResponse)
    (h : r.data = RawData.absent ∨ r.data = RawData.notArray ∨
      r.data = RawData.items []) :
    parseTweets r = [] := by
  unfold parseTweets
  rcases h with h | h | h <;> rw [h] <;> simp

/-- A response with absent data, used to exercise c7. -/
def absentDataResponse : TweetResponse :=
  { data := RawData.absent, includes_users := none, meta := none }

/-- Witness for C7 at a concrete malformed response. -/
theorem c7_witness : parseTweets absentDataResponse = [] :=
  c7_parseTweets_malformed_empty absentDataResponse (Or.inl rfl)

/-- C9: the per-page max_results sent upstream is the value given by the caller
clamped from below to 10: at least 10 always, exactly 10 when the caller
supplied nothing or a value below 10 (0 is falsy and also becomes 10),
and the value given by the caller once it is at least 10. -/
theorem c9_max_results_clamped (query : String) (opts : SearchOpts)
    (tok : Option String) :
    (mkSearchParams query opts tok).max_results = composioMaxResults opts.maxResults ∧
    10 ≤ (mkSearchParams query opts tok).max_results ∧
    (opts.maxResults = none → (mkSearchParams query opts tok).max_results = 10) ∧
    (∀ n, opts.maxResults = some n → n < 10 →
      (mkSearchParams query opts tok).max_results = 10) ∧
    (∀ n, opts.maxResults = some n → 10 ≤ n →
      (mkSearchParams query opts tok).max_results = n) := by
  have hp : (mkSearchParams query opts tok).max_results =
      composioMaxResults opts.maxResults := rfl
  refine ⟨rfl, ?_, ?_, ?_, ?_⟩
  · rw [hp]
    exact Nat.le_max_right (natOr opts.maxResults 10) 10
  · intro h
    rw [hp, h]
    rfl
  · intro n h hn
    rw [hp, h]
    unfold composioMaxResults natOr
    by_cases h0 : n = 0 <;> simp [h0] <;> omega
  · intro n h hn
    rw [hp, h]
    unfold composioMaxResults natOr
    have h0 : n ≠ 0 := by omega
    simp [h0]
    omega

/-- Witness for C9: a caller-supplied maxResults of 3 is raised to 10. -/
theorem c9_witness :
    (mkSearchParams "q"
      { maxResults := some 3, pages := none, sortOrder := none, since := none }
      none).max_results = 10 :=
  (c9_max_results_clamped "q"
    { maxResults := some 3, pages := none, sortOrder := none, since := none }
    none).2.2.2.1 3 rfl (by omega)

/-- The dedupe pass yields a sublist of its input: retained records keep
their relative order. -/
theorem dedupeAux_sublist (seen : List String) (l : List Tweet) :
    List.Sublist (dedupeAux seen l) l := by
  induction l generalizing seen with
  | nil => simp [dedupeAux]
  | cons t rest ih =>
    rw [dedupeAux]
    by_cases ht : t.id ∈ seen
    · rw [if_pos ht]
      exact List.Sublist.cons t (ih seen)
    · rw [if_neg ht]
      exact List.Sublist.cons₂ t (ih (t.id :: seen))

/-- A record surviving the dedupe pass has an id outside the initial
seen-set. -/
theorem dedupeAux_mem_id_not_seen {t : Tweet} (seen : List String)
    (l : List Tweet) (h : t ∈ dedupeAux seen l) : t.id ∉ seen := by
  induction l generalizing seen with
  | nil => simp [dedupeAux] at h
  | cons a rest ih =>
    rw [dedupeAux] at h
    by_cases ha : a.id ∈ seen
    · rw [if_pos ha] at h
      exact ih seen h
    · rw [if_neg ha] at h
      rcases List.mem_cons.mp h with heq | h2
      · subst heq
        exact ha
      · have h3 := ih (a.id :: seen) h2
        intro hc
        exact h3 (List.mem_cons_of_mem _ hc)

/-- The dedupe pass never keeps two records with the same id. -/
theorem dedupeAux_pairwise_ne (seen : List String) (l : List Tweet) :
    (dedupeAux seen l).Pairwise (fun a b => a.id ≠ b.id) := by
  induction l generalizing seen with
  | nil => simp [dedupeAux]
  | cons a rest ih =>
    rw [dedupeAux]
    by_cases ha : a.id ∈ seen
    · rw [if_pos ha]
      exact ih seen
    · rw [if_neg ha]
      refine List.Pairwise.cons ?_ (ih (a.id :: seen))
      intro b hb hab
      have h3 := dedupeAux_mem_id_not_seen (a.id :: seen) rest hb
      exact h3 (by rw [← hab]; exact List.mem_cons_self _ _)

/-- On a list whose ids are pairwise distinct and disjoint from the
seen-set, the dedupe pass is the identity. -/
theorem dedupeAux_eq_self (seen : List String) (l : List Tweet)
    (h1 : l.Pairwise (fun a b => a.id ≠ b.id))
    (h2 : ∀ t ∈ l, t.id ∉ seen) :
    dedupeAux seen l = l := by
  induction l generalizing seen with
  | nil => rfl
  | cons a rest ih =>
    rw [dedupeAux]
    have ha : a.id ∉ seen := h2 a (List.mem_cons_self _ _)
    rw [if_neg ha]
    obtain ⟨hhead, htail⟩ := List.pairwise_cons.mp h1
    congr 1
    apply ih (a.id :: seen) htail
    intro t ht hc
    rcases List.mem_cons.mp hc with heq | hin
    · exact hhead t ht heq.symm
    · exact h2 t (List.mem_cons_of_mem _ ht) hin

/-- A record that is the first occurrence of its id survives the dedupe
pass, provided its id is not already in the seen-set. -/
theorem dedupeAux_first_occurrence (seen : List String) (l1 : List Tweet)
    (t : Tweet) (l2 : List Tweet) (hseen : t.id ∉ seen)
    (hl1 : t.id ∉ l1.map Tweet.id) :
    t ∈ dedupeAux seen (l1 ++ t :: l2) := by
  induction l1 generalizing seen with
  | nil =>
    rw [List.nil_append, dedupeAux, if_neg hseen]
    exact List.mem_cons_self _ _
  | cons a rest ih =>
    rw [List.cons_append, dedupeAux]
    have hmap : t.id ≠ a.id ∧ t.id ∉ rest.map Tweet.id := by
      constructor
      · intro hc
        exact hl1 (by rw [List.map_cons, hc]; exact List.mem_cons_self _ _)
      · intro hc
        exact hl1 (by rw [List.map_cons]; exact List.mem_cons_of_mem _ hc)
    by_cases ha : a.id ∈ seen
    · rw [if_pos ha]
      exact ih seen hseen hmap.2
    · rw [if_neg ha]
      apply List.mem_cons_of_mem
      apply ih (a.id :: seen) ?_ hmap.2
      intro hc
      rcases List.mem_cons.mp hc with heq | hin
      · exact hmap.1 heq
      · exact hseen hin

/-- C5: dedupe keeps at most one record per id, namely the first
occurrence in the input, preserving relative order (the output is a
sublist of the input), and dedupe is idempotent. -/
theorem c5_dedupe_first_seen_idempotent (x : List Tweet) :
    List.Sublist (dedupe x) x ∧
    (dedupe x).Pairwise (fun a b => a.id ≠ b.id) ∧
    dedupe (dedupe x) = dedupe x ∧
    (∀ l1 t l2, x = l1 ++ t :: l2 → t.id ∉ l1.map Tweet.id →
      t ∈ dedupe x) := by
  refine ⟨dedupeAux_sublist [] x, dedupeAux_pairwise_ne [] x, ?_, ?_⟩
  · exact dedupeAux_eq_self [] (dedupe x) (dedupeAux_pairwise_ne [] x)
      (by simp)
  · intro l1 t l2 hx hl1
    rw [hx]
    exact dedupeAux_first_occurrence [] l1 t l2 (by simp) hl1

/-- Witness for C5: with two records sharing id 1, the first occurrence
is the one retained. -/
theorem c5_witness :
    sampleTweet "1" 5 ∈ dedupe [sampleTweet "1" 5, sampleTweet "1" 3] :=
  (c5_dedupe_first_seen_idempotent [sampleTweet "1" 5, sampleTweet "1" 3]).2.2.2
    [] (sampleTweet "1" 5) [sampleTweet "1" 3] rfl (by simp)

/-- C4: sortBy permutes its input, orders it descending by the chosen
metric, and is stable: two records with equal metric values that appear
in a given order in the input appear in that same order in the output.
Identical input yields identical output since sortBy is a function of its
arguments alone. -/
theorem c4_sortBy_stable_descending (l : List Tweet) (met : Metric) :
    List.Perm (sortBy l met) l ∧
    (sortBy l met).Pairwise (fun a b => metricOf met b ≤ metricOf met a) ∧
    (∀ a b : Tweet, metricOf met a = metricOf met b →
      List.Sublist [a, b] l → List.Sublist [a, b] (sortBy l met)) := by
  have htrans : ∀ a b c : Tweet,
      (fun a b => decide (metricOf met b ≤ metricOf met a)) a b →
      (fun a b => decide (metricOf met b ≤ metricOf met a)) b c →
      (fun a b => decide (metricOf met b ≤ metricOf met a)) a c := by
    intro a b c h1 h2
    simp only [decide_eq_true_eq] at h1 h2 ⊢
    omega
  have htotal : ∀ a b : Tweet,
      ((fun a b => decide (metricOf met b ≤ metricOf met a)) a b ||
       (fun a b => decide (metricOf met b ≤ metricOf met a)) b a) = true := by
    intro a b
    simp only [Bool.or_eq_true, decide_eq_true_eq]
    omega
  refine ⟨List.mergeSort_perm l _, ?_, ?_⟩
  · have hs := List.sorted_mergeSort htrans htotal l
    exact hs.imp (fun h => by simpa using h)
  · intro a b hab hsub
    exact List.pair_sublist_mergeSort htrans htotal
      (by simp only [decide_eq_true_eq]; omega) hsub

/-- Witness for C4: two distinct records with equal like counts keep
their input order in the sorted output. -/
theorem c4_witness :
    metricOf Metric.likes (sampleTweet "1" 5) =
      metricOf Metric.likes (sampleTweet "2" 5) ∧
    List.Sublist [sampleTweet "1" 5, sampleTweet "2" 5]
      (sortBy [sampleTweet "1" 5, sampleTweet "2" 5] Metric.likes) :=
  ⟨rfl,
    (c4_sortBy_stable_descending [sampleTweet "1" 5, sampleTweet "2" 5]
      Metric.likes).2.2 (sampleTweet "1" 5) (sampleTweet "2" 5) rfl
      (List.Sublist.refl _)⟩

/-- C3 counterexample: the Bird-path normalizer fails (models the runtime
TypeError from reading a property of an absent metrics block) on an item
whose metrics block is entirely absent, so the claim that every provider
path yields an all-zero metrics record without failing is false. -/
theorem c3_counterexample : parseBirdTweet birdItemNoMetrics = none := rfl

/-- C3 amended: on the Composio path an item with an entirely absent
public_metrics block normalizes with all six metric fields 0 and does not
fail; on the Bird path an entirely absent metrics block makes
parseBirdTweet fail, while counts individually absent inside a present
block (bird payloads carry no bookmark count at all) default to 0. -/
theorem c3_missing_metrics_amended (us : List TwitterUser) (t : RawTweet)
    (b : BirdTweet) :
    (t.public_metrics = none →
      (parseTweet us t).metrics =
        { likes := 0, retweets := 0, replies := 0, quotes := 0,
          impressions := 0, bookmarks := 0 }) ∧
    (b.metrics = none → parseBirdTweet b = none) ∧
    (b.metrics = some { likes := none, retweets := none, replies := none,
                        quotes := none, impressions := none } →
      ∃ ct, parseBirdTweet b = some ct ∧
        ct.metrics =
          { likes := 0, retweets := 0, replies := 0, quotes := 0,
            impressions := 0, bookmarks := 0 }) := by
  refine ⟨?_, ?_, ?_⟩
  · intro h
    simp [parseTweet, h, emptyRawMetrics]
  · intro h
    simp [parseBirdTweet, h]
  · intro h
    refine ⟨_, by rw [parseBirdTweet, h], rfl⟩

/-- Witness for C3 at concrete items: a Composio item without metrics
normalizes to zeros, a Bird item without metrics fails. -/
theorem c3_witness :
    (parseTweet [] rawItemNoMetrics).metrics =
      { likes := 0, retweets := 0, replies := 0, quotes := 0,
        impressions := 0, bookmarks := 0 } ∧
    parseBirdTweet birdItemNoMetrics = none :=
  ⟨(c3_missing_metrics_amended [] rawItemNoMetrics birdItemNoMetrics).1 rfl,
   (c3_missing_metrics_amended [] rawItemNoMetrics birdItemNoMetrics).2.1 rfl⟩

/-- C1 counterexample: Bird available but failing and Composio configured
but failing: the routed operation surfaces the raw Composio error, not the
aggregated no-provider error the claim requires. -/
theorem c1_counterexample :
    @route (List Tweet) true (AdapterResult.fail "bird down") "key123"
        (AdapterResult.fail "composio 500") =
      (Except.error (RouteError.composioFail "composio 500"),
       ["Bird CLI failed, falling back to Composio: bird down"]) ∧
    RouteError.composioFail "composio 500" ≠ RouteError.allUnavailable := by
  constructor
  · rfl
  · intro hc
    exact RouteError.noConfusion hc

/-- C1 amended: a transient failure of the preferred (Bird) adapter is
logged and the Composio adapter is attempted next; the aggregated
no-provider error is raised exactly when Bird is unavailable or failed
and the Composio credential is absent; when the credential is present
and the attempted Composio call itself fails, that raw failure is
surfaced instead of the aggregated error; a Bird success short-circuits
with no fallback and no log. -/
theorem c1_router_fallback {α : Type} (birdAvail : Bool)
    (birdRes : AdapterResult α) (key : String)
    (composioRes : AdapterResult α) :
    (∀ e, birdAvail = true → birdRes = AdapterResult.fail e →
      route birdAvail birdRes key composioRes =
        routeFromComposio key composioRes
          ["Bird CLI failed, falling back to Composio: " ++ e]) ∧
    (key = "" → (birdAvail = false ∨ (∃ e, birdRes = AdapterResult.fail e)) →
      (route birdAvail birdRes key composioRes).1 =
        Except.error RouteError.allUnavailable) ∧
    (∀ e2, key ≠ "" →
      (birdAvail = false ∨ (∃ e, birdRes = AdapterResult.fail e)) →
      composioRes = AdapterResult.fail e2 →
      (route birdAvail birdRes key composioRes).1 =
        Except.error (RouteError.composioFail e2)) ∧
    (∀ v, birdAvail = true → birdRes = AdapterResult.ok v →
      route birdAvail birdRes key composioRes = (Except.ok v, [])) := by
  refine ⟨?_, ?_, ?_, ?_⟩
  · intro e hb hr
    subst hb
    subst hr
    rfl
  · intro hkey hdisj
    rcases hdisj with hb | ⟨e, hr⟩
    · subst hb
      simp [route, routeFromComposio, hkey]
    · subst hr
      cases birdAvail <;> simp [route, routeFromComposio, hkey]
  · intro e2 hkey hdisj hr2
    subst hr2
    rcases hdisj with hb | ⟨e, hr⟩
    · subst hb
      simp [route, routeFromComposio, hkey]
    · subst hr
      cases birdAvail <;> simp [route, routeFromComposio, hkey]
  · intro v hb hr
    subst hb
    subst hr
    rfl

/-- Witness for C1 at concrete adapter outcomes: with Bird failing and no
Composio credential, the aggregated no-provider error is raised. -/
theorem c1_witness :
    (@route (List Tweet) true (AdapterResult.fail "down") ""
      (AdapterResult.fail "unreached")).1 =
      Except.error RouteError.allUnavailable :=
  (c1_router_fallback true (AdapterResult.fail "down") ""
    (AdapterResult.fail "unreached")).2.1 rfl (Or.inr ⟨"down", rfl⟩)

/-- The page budget is always at least 1: a missing or zero pages option
defaults to 1. -/
theorem composioPages_pos (o : Option Nat) : 0 < composioPages o := by
  unfold composioPages natOr
  rcases o with _ | n
  · simp
  · by_cases h0 : n = 0 <;> simp [h0] <;> omega

/-- While budget remains, the trace of a pagination run starts with the
fetch of the current page. -/
theorem searchPages_trace_head (f : Nat → Option String → TweetResponse)
    (pages page : Nat) (tok : Option String) (h : page < pages) :
    ∃ evs, (searchPages f pages page tok).2 = Event.fetchPage page :: evs := by
  rcases hr : responseNextToken (f page tok) with _ | t
  · refine ⟨[], ?_⟩
    rw [searchPages_step f pages page tok h, hr]
  · by_cases hg : page < pages - 1
    · refine ⟨Event.delay :: (searchPages f pages (page + 1) (some t)).2, ?_⟩
      rw [searchPages_step f pages page tok h, hr]
      simp [hg]
    · refine ⟨(searchPages f pages (page + 1) (some t)).2, ?_⟩
      rw [searchPages_step f pages page tok h, hr]
      simp [hg]

/-- C2 counterexample: with a budget of 2, page 0 returns zero records
but carries a continuation token; the engine does not stop there — it
paces and fetches page 1, accumulating its records — contradicting the
claim that a zero-record page ends pagination. -/
theorem c2_counterexample :
    parseTweets (cexFetch 0 none) = [] ∧
    responseNextToken (cexFetch 0 none) = some "T" ∧
    (searchPages cexFetch 2 0 none).2 =
      [Event.fetchPage 0, Event.delay, Event.fetchPage 1] ∧
    (searchPages cexFetch 2 0 none).1 = [parseTweet [] cexRawItem] := by
  have h1 : searchPages cexFetch 2 1 (some "T") =
      (parseTweets (cexFetch 1 (some "T")), [Event.fetchPage 1]) := by
    rw [searchPages_step cexFetch 2 1 (some "T") (by omega)]
    rfl
  have h0 : searchPages cexFetch 2 0 none =
      (parseTweets (cexFetch 0 none) ++ (searchPages cexFetch 2 1 (some "T")).1,
       Event.fetchPage 0 :: Event.delay :: (searchPages cexFetch 2 1 (some "T")).2) := by
    rw [searchPages_step cexFetch 2 0 none (by omega)]
    rfl
  refine ⟨rfl, rfl, ?_, ?_⟩
  · rw [h0, h1]
  · rw [h0, h1]
    rfl

/-- C2 amended: the pagination loop stops exactly when the page budget is
exhausted or the just-fetched page carries no continuation token; a page
that yields zero records does not end pagination when a continuation
token is present and budget remains — the next page is still fetched. -/
theorem c2_pagination_stop_conditions (f : Nat → Option String → TweetResponse)
    (pages page : Nat) (tok : Option String) (h : page < pages) :
    (responseNextToken (f page tok) = none →
      searchPages f pages page tok =
        (parseTweets (f page tok), [Event.fetchPage page])) ∧
    (∀ t, responseNextToken (f page tok) = some t → page + 1 = pages →
      searchPages f pages page tok =
        (parseTweets (f page tok), [Event.fetchPage page])) ∧
    (∀ t, responseNextToken (f page tok) = some t → page + 1 < pages →
      (searchPages f pages page tok).2 =
        Event.fetchPage page :: Event.delay ::
          (searchPages f pages (page + 1) (some t)).2 ∧
      Event.fetchPage (page + 1) ∈ (searchPages f pages page tok).2) := by
  refine ⟨?_, ?_, ?_⟩
  · intro h1
    rw [searchPages_step f pages page tok h, h1]
  · intro t h1 h2
    rw [searchPages_step f pages page tok h, h1]
    have hstop : searchPages f pages (page + 1) (some t) = ([], []) :=
      searchPages_stop f pages (page + 1) (some t) (by omega)
    have hg : ¬ page < pages - 1 := by omega
    simp [hg, hstop]
  · intro t h1 h2
    have hg : page < pages - 1 := by omega
    have htr : (searchPages f pages page tok).2 =
        Event.fetchPage page :: Event.delay ::
          (searchPages f pages (page + 1) (some t)).2 := by
      rw [searchPages_step f pages page tok h, h1]
      simp [hg]
    refine ⟨htr, ?_⟩
    obtain ⟨evs, hevs⟩ := searchPages_trace_head f pages (page + 1) (some t) (by omega)
    rw [htr, hevs]
    simp

/-- Witness for C2 at the concrete oracle: page 0 has a token (and zero
records), budget remains, and the engine proceeds to fetch page 1. -/
theorem c2_witness :
    (searchPages cexFetch 2 0 none).2 =
      Event.fetchPage 0 :: Event.delay ::
        (searchPages cexFetch 2 1 (some "T")).2 ∧
    Event.fetchPage 1 ∈ (searchPages cexFetch 2 0 none).2 :=
  (c2_pagination_stop_conditions cexFetch 2 0 none (by omega)).2.2 "T" rfl
    (by omega)

/-- The trace of a pagination run from any page with budget remaining is
a nonempty block of consecutive page fetches with exactly one pacing
delay strictly between consecutive fetches. -/
theorem searchPages_trace_intersperse (f : Nat → Option String → TweetResponse)
    (pages : Nat) :
    ∀ n page tok, page < pages → pages - page = n →
      ∃ k, 1 ≤ k ∧ page + k ≤ pages ∧
        (searchPages f pages page tok).2 =
          List.intersperse Event.delay
            ((List.range' page k).map Event.fetchPage) := by
  intro n
  induction n with
  | zero =>
    intro page tok h hn
    omega
  | succ n ih =>
    intro page tok h hn
    rcases hr : responseNextToken (f page tok) with _ | t
    · refine ⟨1, le_refl 1, by omega, ?_⟩
      rw [searchPages_step f pages page tok h, hr]
      rw [List.range'_succ]
      simp
    · by_cases hg : page < pages - 1
      · obtain ⟨k, hk1, hk2, htr⟩ := ih (page + 1) (some t) (by omega) (by omega)
        refine ⟨k + 1, by omega, by omega, ?_⟩
        rw [searchPages_step f pages page tok h, hr]
        simp only [hg, if_true, if_pos hg]
        rw [htr]
        obtain ⟨k0, rfl⟩ : ∃ k0, k = k0 + 1 := ⟨k - 1, by omega⟩
        rw [List.range'_succ page (k0 + 1) 1]
        rw [List.range'_succ (page + 1) k0 1]
        simp
      · have hstop : searchPages f pages (page + 1) (some t) = ([], []) :=
          searchPages_stop f pages (page + 1) (some t) (by omega)
        refine ⟨1, le_refl 1, by omega, ?_⟩
        rw [searchPages_step f pages page tok h, hr]
        rw [List.range'_succ]
        simp [hg, hstop]

/-- C8: the trace of every paginated search is exactly
fetch 0, delay, fetch 1, delay, ..., fetch (k-1) for some k between 1
and the page budget: the pacing delay occurs only strictly between two
consecutive page fetches of the same run, never before the first fetch,
and never after the final fetch (it is skipped when the budget is
exhausted or no continuation token remains). -/
theorem c8_delay_only_between_pages (g : RequestParams → TweetResponse)
    (query : String) (opts : SearchOpts) :
    ∃ k, 1 ≤ k ∧ k ≤ composioPages opts.pages ∧
      (composioSearchRun g query opts).2 =
        List.intersperse Event.delay ((List.range k).map Event.fetchPage) := by
  have hpos : 0 < composioPages opts.pages := composioPages_pos opts.pages
  obtain ⟨k, h1, h2, htr⟩ := searchPages_trace_intersperse
    (fun _page tok => g (mkSearchParams query opts tok))
    (composioPages opts.pages) (composioPages opts.pages - 0) 0 none hpos rfl
  refine ⟨k, h1, by omega, ?_⟩
  unfold composioSearchRun
  rw [htr, List.range_eq_range']

/-- C10: the Composio single-item lookup returns the first record whose
id matches the argument when one exists; when the search result is
nonempty but contains no matching id it falls back to the first search
result; it returns absent exactly when the search yields no records. -/
theorem c10_composioTweet_fallback_first (g : RequestParams → TweetResponse)
    (tweetId : String) :
    ((∀ t ∈ composioTweetSearch g tweetId, t.id ≠ tweetId) →
      composioTweet g tweetId = (composioTweetSearch g tweetId).head?) ∧
    (composioTweet g tweetId = none ↔ composioTweetSearch g tweetId = []) := by
  unfold composioTweet composioTweetPick
  constructor
  · intro hall
    have hnone : (composioTweetSearch g tweetId).find?
        (fun t => t.id == tweetId) = none := by
      apply List.find?_eq_none.mpr
      intro t ht
      simpa using hall t ht
    rw [hnone]
  · cases hl : composioTweetSearch g tweetId with
    | nil => simp
    | cons a as =>
      rcases hf : (a :: as).find? (fun t => t.id == tweetId) with _ | t
      · simp [hf]
      · simp [hf]

/-- Evaluation of the single-item search on the concrete oracle: the one
retrieved record has id 99. -/
theorem g0_search_eval : composioTweetSearch g0 "123" = [parseTweet [] cexRawItem] := by
  unfold composioTweetSearch composioSearchRun
  rw [searchPages_step _ _ 0 none (by decide)]
  rfl

/-- Witness for C10: a lookup for id 123 over a result list whose only
record has id 99 returns that first record, not absent. -/
theorem c10_witness :
    (∀ t ∈ composioTweetSearch g0 "123", t.id ≠ "123") ∧
    composioTweet g0 "123" = (composioTweetSearch g0 "123").head? := by
  have hall : ∀ t ∈ composioTweetSearch g0 "123", t.id ≠ "123" := by
    rw [g0_search_eval]
    intro t ht
    have : t = parseTweet [] cexRawItem := by simpa using ht
    subst this
    decide
  exact ⟨hall, (c10_composioTweet_fallback_first g0 "123").1 hall⟩
